import Mathlib

/-!
Verification of the mock reporting client in
src/mock_cpp_agent/send_report.cpp, together with the Report Submitter
component that the specification describes for it.

The first part is a shallow embedding of the C++ program: the transport
layer (libcurl) is abstracted as a function from the assembled request to a
CURLcode, and the program is a pure function from its arguments and that
environment to its observable behaviour (exit code, stderr lines, requests
performed, in order).

The second part models, from the specification alone, the retry/backoff
submit routine of the Report Submitter, because that component has no
implementation in the repository.
-/

/-- Result code returned by the transport-level HTTP call, mirroring
CURLcode: either CURLE_OK, or an error carrying the text that
curl_easy_strerror would render for it. -/
inductive CURLcode where
  | CURLE_OK : CURLcode
  | curlError (msg : String) : CURLcode
deriving DecidableEq, Repr

/-- An outgoing HTTP request as assembled through the curl_easy_setopt
calls in send_report.cpp: setting CURLOPT_POSTFIELDS makes libcurl issue a
POST; CURLOPT_URL, the CURLOPT_HTTPHEADER list (in append order) and the
POST body are recorded verbatim. -/
structure CurlRequest where
  method : String
  url : String
  headers : List String
  body : String
deriving DecidableEq, Repr

/-- Fixed JSON payload of send_report.cpp: the raw string literal assigned
to the local variable json, reproduced byte for byte (braces written as
hex escapes). -/
def jsonPayload : String :=
  "\x7b\n      \"agent_name\": \"mock-cpp-agent\",\n      \"project_id\": 1,\n      \"run_id\": \"run-123\",\n      \"meta\": \x7b \"hostname\": \"mock-runner\", \"timestamp\": \"2025-11-07T12:00:00Z\", \"duration_seconds\": 12.5 \x7d,\n      \"payload\": \x7b \"performance\": \x7b \"functions\": [ \x7b \"name\": \"doWork\", \"p75_ms\": 10.2, \"p95_ms\": 20.1, \"allocations\": 5 \x7d ], \"max_memory_mb\": 128 \x7d, \"fuzz\": \x7b \"runs\": 1000, \"crashes\": [] \x7d \x7d\n    \x7d"

/-- Observable outcome of one process run: the exit code, the strings
printed to standard error, and the HTTP requests performed, in order. -/
structure ProgResult where
  exitCode : Nat
  stderrOut : List String
  requests : List CurlRequest
deriving DecidableEq, Repr

/-- Request assembled by main for given url and token arguments: a POST to
url, with the Content-Type header appended first and the X-Agent-Token
header (built as the concatenation seen in the source) second, and the
fixed JSON payload as body. -/
def buildRequest (url token : String) : CurlRequest :=
  ⟨"POST", url,
    ["Content-Type: application/json", "X-Agent-Token: " ++ token],
    jsonPayload⟩

/-- Shallow embedding of main from send_report.cpp. prog stands for
argv[0] and args for the remaining argv entries, so the argc < 3 test of
the source is args.length < 2. initOk tells whether curl_easy_init
succeeds, and perform gives the CURLcode that curl_easy_perform returns
for the performed request. Mirroring the source: fewer than two arguments
prints the usage line and returns 1; a failed init prints its message and
returns 1; otherwise the request is performed once and the program returns
0 whatever the CURLcode, printing a curl-failure line on error. -/
def runMain (prog : String) (args : List String) (initOk : Bool)
    (perform : CurlRequest → CURLcode) : ProgResult :=
  match args with
  | url :: token :: _ =>
    if initOk then
      let req := buildRequest url token
      match perform req with
      | .CURLE_OK => ⟨0, [], [req]⟩
      | .curlError msg => ⟨0, ["curl failed: " ++ msg ++ "\n"], [req]⟩
    else ⟨1, ["curl init failed\n"], []⟩
  | _ => ⟨1, ["Usage: " ++ prog ++ " <url> <agent_token>\n"], []⟩

/-- Transport environment in which curl_easy_perform always reports a
network-level failure. -/
def failingPerform : CurlRequest → CURLcode :=
  fun _ => .curlError "Couldn't connect to server"

/-- Transport environment in which curl_easy_perform always succeeds. -/
def okPerform : CurlRequest → CURLcode :=
  fun _ => .CURLE_OK

/-- Modelled from the spec: the failure kinds of DeliveryOutcome (section
4.1); the Report Submitter component has no implementation in the
repository. -/
inductive FailureKind where
  | ConnectionError : FailureKind
  | Timeout : FailureKind
  | ClientError : FailureKind
  | ServerError : FailureKind
  | ExhaustedRetries : FailureKind
deriving DecidableEq, Repr

/-- Modelled from the spec: DeliveryOutcome (section 3), a tagged result:
Success with the HTTP status, or Failure with a kind, the last error
message and the number of attempts made. -/
inductive DeliveryOutcome where
  | Success (status : Nat) : DeliveryOutcome
  | Failure (kind : FailureKind) (lastError : String) (attempts : Nat) : DeliveryOutcome
deriving DecidableEq, Repr

/-- Modelled from the spec: a Report (section 3): immutable value holding
the destination URL, the auth token, the content-type string and the body
bytes. -/
structure Report where
  destination : String
  token : String
  contentType : String
  body : String
deriving DecidableEq, Repr

/-- Input precondition of submit (section 4.1): non-empty destination URL
and non-empty token. -/
def Report.valid (r : Report) : Prop :=
  r.destination ≠ "" ∧ r.token ≠ ""

/-- Result of one transport attempt as the Report Submitter observes it:
either a network-level error with a message, or an HTTP status code. -/
inductive TransportResult where
  | netError (msg : String) : TransportResult
  | status (code : Nat) : TransportResult
deriving DecidableEq, Repr

/-- Fixed ceiling on the backoff delay, in milliseconds (section 4.1:
capped at a fixed ceiling, e.g. 30s). -/
def backoffCapMs : Nat := 30000

/-- Backoff delay in milliseconds inserted after attempt i:
baseBackoffMs * 2 ^ (i - 1), capped at backoffCapMs. -/
def backoffDelay (baseBackoffMs i : Nat) : Nat :=
  min (baseBackoffMs * 2 ^ (i - 1)) backoffCapMs

/-- Error message recorded when an attempt ends in an HTTP error
status. -/
def statusMsg (s : Nat) : String :=
  "HTTP status " ++ toString s

/-- Trace of one submit call: the final DeliveryOutcome, the backoff
delays inserted between consecutive attempts (in order), and the number of
transport attempts performed. -/
structure SubmitTrace where
  outcome : DeliveryOutcome
  delays : List Nat
  calls : Nat
deriving DecidableEq, Repr

/-- Modelled from the spec: the attempt loop of submit (section 4.1),
which has no implementation in the repository. a is the 1-based index of
the current attempt and the last argument the number of attempts still
allowed. An HTTP 2xx returns Success immediately; an HTTP 4xx fails
immediately with ClientError; any other transport result (network-level
failure, 5xx and other statuses) is transient: with attempts left, the
backoff delay for this attempt is inserted and the loop retries, otherwise
the outcome is ExhaustedRetries recording the last error and the attempts
made. -/
def submitGo (transport : Nat → TransportResult) (baseBackoffMs : Nat) :
    Nat → Nat → SubmitTrace
  | _, 0 => ⟨.Failure .ExhaustedRetries "no attempt performed" 0, [], 0⟩
  | a, r + 1 =>
    match transport a with
    | .status s =>
      if 200 ≤ s ∧ s ≤ 299 then ⟨.Success s, [], 1⟩
      else if 400 ≤ s ∧ s ≤ 499 then ⟨.Failure .ClientError (statusMsg s) a, [], 1⟩
      else if r = 0 then ⟨.Failure .ExhaustedRetries (statusMsg s) a, [], 1⟩
      else
        let rest := submitGo transport baseBackoffMs (a + 1) r
        ⟨rest.outcome, backoffDelay baseBackoffMs a :: rest.delays, rest.calls + 1⟩
    | .netError m =>
      if r = 0 then ⟨.Failure .ExhaustedRetries m a, [], 1⟩
      else
        let rest := submitGo transport baseBackoffMs (a + 1) r
        ⟨rest.outcome, backoffDelay baseBackoffMs a :: rest.delays, rest.calls + 1⟩

/-- Modelled from the spec: submit (section 4.1), which has no
implementation in the repository. The transport abstracts the network: it
maps the report and the 1-based attempt index to that attempt's result.
submit runs the attempt loop starting at attempt 1 with maxAttempts
attempts allowed. -/
def submit (r : Report) (transport : Report → Nat → TransportResult)
    (maxAttempts baseBackoffMs : Nat) : SubmitTrace :=
  submitGo (transport r) baseBackoffMs 1 maxAttempts

/-- Example report used to instantiate universally quantified theorems. -/
def rep0 : Report :=
  ⟨"http://x/report", "t", "application/json", "\x7b\x7d"⟩

/-- Transport that answers HTTP 503 on every attempt. -/
def t503 : Report → Nat → TransportResult := fun _ _ => .status 503

/-- Transport that answers HTTP 200 on every attempt. -/
def t200 : Report → Nat → TransportResult := fun _ _ => .status 200

/-- Transport that answers HTTP 404 on every attempt. -/
def t404 : Report → Nat → TransportResult := fun _ _ => .status 404

/-- With two arguments and a successful init, exactly the request built
from the url and token arguments is performed, whatever the transport
answers. -/
theorem runMain_requests_eq (prog url token : String) (rest : List String)
    (perform : CurlRequest → CURLcode) :
    (runMain prog (url :: token :: rest) true perform).requests =
      [buildRequest url token] := by
  cases h : perform (buildRequest url token) <;> simp [runMain, h]

/-- Unfolding step of the attempt loop against the always-503 transport
when at least two attempts remain. -/
theorem submitGo_503_two (base a r : Nat) :
    submitGo (fun _ => .status 503) base a (r + 2) =
      ⟨(submitGo (fun _ => .status 503) base (a + 1) (r + 1)).outcome,
        backoffDelay base a ::
          (submitGo (fun _ => .status 503) base (a + 1) (r + 1)).delays,
        (submitGo (fun _ => .status 503) base (a + 1) (r + 1)).calls + 1⟩ := by
  conv_lhs => rw [submitGo]
  norm_num

/-- Unfolding step of the attempt loop against the always-503 transport on
its last allowed attempt. -/
theorem submitGo_503_one (base a : Nat) :
    submitGo (fun _ => .status 503) base a 1 =
      ⟨.Failure .ExhaustedRetries (statusMsg 503) a, [], 1⟩ := by
  rw [submitGo]
  norm_num

/-- Against the always-503 transport, the attempt loop started at attempt
a with r attempts allowed performs exactly r calls and ends in
ExhaustedRetries recording the index of the last attempt. -/
theorem submitGo_always503 (base : Nat) :
    ∀ r a : Nat, 1 ≤ r →
      (submitGo (fun _ => .status 503) base a r).calls = r ∧
      (submitGo (fun _ => .status 503) base a r).outcome =
        .Failure .ExhaustedRetries (statusMsg 503) (a + r - 1) := by
  intro r
  induction r with
  | zero => intro a h; omega
  | succ n ih =>
    intro a _
    cases n with
    | zero =>
      rw [submitGo_503_one]
      exact ⟨rfl, by simp⟩
    | succ m =>
      have h' := ih (a + 1) (by omega)
      rw [submitGo_503_two]
      refine ⟨by simp [h'.1], ?_⟩
      simp only [h'.2]
      congr 1
      omega

/-- The j-th backoff delay produced by the attempt loop started at attempt
a is the backoff delay of attempt a + j. -/
theorem submitGo_delays_getD (t : Nat → TransportResult) (base : Nat) :
    ∀ r a j : Nat, j < (submitGo t base a r).delays.length →
      (submitGo t base a r).delays.getD j 0 = backoffDelay base (a + j) := by
  intro r
  induction r with
  | zero => intro a j h; simp [submitGo] at h
  | succ n ih =>
    intro a j h
    rw [submitGo] at h ⊢
    cases ht : t a with
    | status s =>
      simp only [ht] at h ⊢
      by_cases h2 : 200 ≤ s ∧ s ≤ 299
      · simp [h2] at h
      · by_cases h4 : 400 ≤ s ∧ s ≤ 499
        · simp [h2, h4] at h
        · by_cases hn : n = 0
          · simp [h2, h4, hn] at h
          · simp only [if_neg h2, if_neg h4, if_neg hn] at h ⊢
            cases j with
            | zero => simp
            | succ k =>
              simp only [List.length_cons, Nat.succ_lt_succ_iff] at h
              have := ih (a + 1) k h
              simp only [List.getD_cons_succ, this]
              congr 1
              omega
    | netError m =>
      simp only [ht] at h ⊢
      by_cases hn : n = 0
      · simp [hn] at h
      · simp only [if_neg hn] at h ⊢
        cases j with
        | zero => simp
        | succ k =>
          simp only [List.length_cons, Nat.succ_lt_succ_iff] at h
          have := ih (a + 1) k h
          simp only [List.getD_cons_succ, this]
          congr 1
          omega

/-- Claim C1, counterexample: a run with valid arguments whose HTTP
request fails at the network level (the stderr output shows the curl
failure) still exits with code 0, not a nonzero code. -/
theorem C1_counterexample :
    (runMain "./send_report" ["http://localhost:8000/api/v1/agents/cpp/report", "tok"]
        true failingPerform).stderrOut = ["curl failed: Couldn't connect to server\n"] ∧
    (runMain "./send_report" ["http://localhost:8000/api/v1/agents/cpp/report", "tok"]
        true failingPerform).exitCode = 0 := by
  exact ⟨rfl, rfl⟩

/-- Claim C1, amended: with a URL and token argument the exit code is 1
exactly when curl initialization fails; once the request is performed the
process exits 0 whether or not the HTTP request succeeded (a network-level
failure is only logged to stderr). -/
theorem C1_amended_exit_code (prog url token : String) (rest : List String)
    (initOk : Bool) (perform : CurlRequest → CURLcode) :
    (runMain prog (url :: token :: rest) initOk perform).exitCode =
      (if initOk then 0 else 1) := by
  cases initOk with
  | false => rfl
  | true => cases h : perform (buildRequest url token) <;> simp [runMain, h]

/-- Claim C2: for every maxAttempts N with N at least 1 and a transport
returning HTTP 503 on every attempt, submit performs exactly N transport
attempts and returns Failure ExhaustedRetries recording N attempts. -/
theorem C2_always503_exhausts (rep : Report) (base N : Nat) (hN : 1 ≤ N) :
    (submit rep t503 N base).calls = N ∧
    (submit rep t503 N base).outcome =
      .Failure .ExhaustedRetries (statusMsg 503) N := by
  have h := submitGo_always503 base N 1 hN
  have e : 1 + N - 1 = N := by omega
  rw [e] at h
  exact ⟨h.1, h.2⟩

/-- Claim C2, witness at N = 3. -/
theorem C2_witness :
    1 ≤ 3 ∧
    ((submit rep0 t503 3 100).calls = 3 ∧
     (submit rep0 t503 3 100).outcome =
       .Failure .ExhaustedRetries (statusMsg 503) 3) :=
  ⟨by decide, C2_always503_exhausts rep0 100 3 (by decide)⟩

/-- Claim C3: for every valid report whose first transport attempt returns
an HTTP status in 200-299, submit returns Success with that status and
exactly 1 attempt performed. -/
theorem C3_first_2xx_success (rep : Report)
    (transport : Report → Nat → TransportResult) (N base s : Nat)
    (hv : rep.valid) (hN : 1 ≤ N) (h1 : transport rep 1 = .status s)
    (h2 : 200 ≤ s) (h3 : s ≤ 299) :
    (submit rep transport N base).outcome = .Success s ∧
    (submit rep transport N base).calls = 1 := by
  obtain ⟨n, rfl⟩ : ∃ n, N = n + 1 := ⟨N - 1, by omega⟩
  simp only [submit]
  rw [submitGo, h1]
  simp [h2, h3]

/-- Claim C3, witness: the always-200 transport with one attempt
allowed. -/
theorem C3_witness :
    rep0.valid ∧
    ((submit rep0 t200 1 100).outcome = .Success 200 ∧
     (submit rep0 t200 1 100).calls = 1) :=
  ⟨⟨by decide, by decide⟩,
   C3_first_2xx_success rep0 t200 1 100 200 ⟨by decide, by decide⟩
     (by decide) rfl (by decide) (by decide)⟩

/-- Claim C4: a transport answering an HTTP 4xx status on the first
attempt makes submit perform exactly 1 attempt, insert no backoff delay,
and return Failure ClientError recording 1 attempt; instantiated at 404 by
the witness. -/
theorem C4_4xx_immediate_client_error (rep : Report)
    (transport : Report → Nat → TransportResult) (N base s : Nat)
    (hN : 1 ≤ N) (h1 : transport rep 1 = .status s)
    (h4 : 400 ≤ s) (h5 : s ≤ 499) :
    (submit rep transport N base).calls = 1 ∧
    (submit rep transport N base).delays = [] ∧
    (submit rep transport N base).outcome =
      .Failure .ClientError (statusMsg s) 1 := by
  obtain ⟨n, rfl⟩ : ∃ n, N = n + 1 := ⟨N - 1, by omega⟩
  simp only [submit]
  rw [submitGo, h1]
  have h2 : ¬(200 ≤ s ∧ s ≤ 299) := by omega
  simp [h2, h4, h5]

/-- Claim C4, witness at status 404 with three attempts allowed. -/
theorem C4_witness :
    1 ≤ 3 ∧
    ((submit rep0 t404 3 100).calls = 1 ∧
     (submit rep0 t404 3 100).delays = [] ∧
     (submit rep0 t404 3 100).outcome =
       .Failure .ClientError (statusMsg 404) 1) :=
  ⟨by decide,
   C4_4xx_immediate_client_error rep0 t404 3 100 404 (by decide) rfl
     (by decide) (by decide)⟩

/-- Claim C5, counterexample: with baseBackoffMs 20000 the delay inserted
between attempt 2 and attempt 3 is the cap 30000, not
baseBackoffMs * 2 ^ (2 - 1) = 40000, so the delay does not always equal
that product nor stay above it. -/
theorem C5_counterexample :
    (submit rep0 t503 3 20000).delays.getD 1 0 = 30000 ∧
    20000 * 2 ^ (2 - 1) ≠ 30000 := by
  decide

/-- Claim C5, amended: for every attempt index i with i at least 1, the
backoff delay inserted between attempt i and attempt i + 1 equals the
minimum of baseBackoffMs * 2 ^ (i - 1) and the fixed cap of 30000 ms; it
equals the product whenever the product does not exceed the cap and never
exceeds the cap. -/
theorem C5_amended_backoff_delay (rep : Report)
    (transport : Report → Nat → TransportResult) (N base i : Nat)
    (hi : 1 ≤ i) (h : i - 1 < (submit rep transport N base).delays.length) :
    (submit rep transport N base).delays.getD (i - 1) 0 =
      min (base * 2 ^ (i - 1)) backoffCapMs := by
  have hd := submitGo_delays_getD (transport rep) base N 1 (i - 1) h
  have e : 1 + (i - 1) - 1 = i - 1 := by omega
  simp only [submit]
  rw [hd, backoffDelay, e]

/-- Claim C5, witness at i = 1 for a two-attempt run against the
always-503 transport. -/
theorem C5_witness :
    1 ≤ 1 ∧ 1 - 1 < (submit rep0 t503 2 100).delays.length ∧
    (submit rep0 t503 2 100).delays.getD (1 - 1) 0 =
      min (100 * 2 ^ (1 - 1)) backoffCapMs :=
  ⟨by decide, by decide,
   C5_amended_backoff_delay rep0 t503 2 100 1 (by decide) (by decide)⟩

/-- Claim C6, counterexample: in the run with arguments "u" and "t" the
request body is the fixed JSON payload, which is neither of the two
caller-supplied strings, so the body is not caller-supplied bytes. -/
theorem C6_counterexample :
    (runMain "p" ["u", "t"] true okPerform).requests.map CurlRequest.body =
      [jsonPayload] ∧
    jsonPayload ≠ "u" ∧ jsonPayload ≠ "t" := by
  refine ⟨?_, by decide, by decide⟩
  rw [runMain_requests_eq]
  rfl

/-- Claim C6, amended: for every invocation with url and token arguments
(and successful init), the outgoing request is an HTTP POST to the given
URL whose headers are Content-Type: application/json and X-Agent-Token
followed by exactly the token argument, and whose body is the program's
fixed JSON payload. -/
theorem C6_amended_request_shape (prog url token : String)
    (rest : List String) (perform : CurlRequest → CURLcode) :
    (runMain prog (url :: token :: rest) true perform).requests =
      [⟨"POST", url,
        ["Content-Type: application/json", "X-Agent-Token: " ++ token],
        jsonPayload⟩] := by
  rw [runMain_requests_eq]
  rfl

/-- Claim C7: for every invocation with fewer than two command-line
arguments, the program prints the usage message to standard error and
exits with code 1 without performing any HTTP request. -/
theorem C7_usage_exit (prog : String) (args : List String) (initOk : Bool)
    (perform : CurlRequest → CURLcode) (h : args.length < 2) :
    runMain prog args initOk perform =
      ⟨1, ["Usage: " ++ prog ++ " <url> <agent_token>\n"], []⟩ := by
  cases args with
  | nil => rfl
  | cons a t =>
    cases t with
    | nil => rfl
    | cons b r =>
      simp only [List.length_cons] at h
      omega

/-- Claim C7, witness: a single-argument invocation. -/
theorem C7_witness :
    (["http://x"] : List String).length < 2 ∧
    runMain "./send_report" ["http://x"] true okPerform =
      ⟨1, ["Usage: " ++ "./send_report" ++ " <url> <agent_token>\n"], []⟩ :=
  ⟨by decide, C7_usage_exit "./send_report" ["http://x"] true okPerform (by decide)⟩

/-- Claim C8: two invocations with the same url and token arguments (any
program name, any extra arguments, any transport behaviour) perform the
identical request list: the constructed request is a deterministic
function of the url and token alone, with no state shared between
invocations. -/
theorem C8_deterministic_request (p1 p2 url token : String)
    (r1 r2 : List String) (perf1 perf2 : CurlRequest → CURLcode) :
    (runMain p1 (url :: token :: r1) true perf1).requests =
      (runMain p2 (url :: token :: r2) true perf2).requests := by
  rw [runMain_requests_eq, runMain_requests_eq]

/-- Claim C9: every request performed by any invocation has the fixed JSON
payload as body, independent of both arguments, and its header list
carries the token only in the X-Agent-Token header. -/
theorem C9_body_constant (prog url token : String) (rest : List String)
    (initOk : Bool) (perform : CurlRequest → CURLcode) :
    ∀ q ∈ (runMain prog (url :: token :: rest) initOk perform).requests,
      q.body = jsonPayload ∧
      q.headers =
        ["Content-Type: application/json", "X-Agent-Token: " ++ token] := by
  cases initOk with
  | false => intro q hq; simp [runMain] at hq
  | true =>
    intro q hq
    rw [runMain_requests_eq] at hq
    simp only [List.mem_singleton] at hq
    subst hq
    exact ⟨rfl, rfl⟩

/-- Claim C9, witness: the request performed for arguments "u" and "t". -/
theorem C9_witness :
    buildRequest "u" "t" ∈ (runMain "p" ["u", "t"] true okPerform).requests ∧
    ((buildRequest "u" "t").body = jsonPayload ∧
     (buildRequest "u" "t").headers =
       ["Content-Type: application/json", "X-Agent-Token: " ++ "t"]) :=
  ⟨by rw [runMain_requests_eq]; exact List.mem_singleton.2 rfl,
   C9_body_constant "p" "u" "t" [] true okPerform (buildRequest "u" "t")
     (by rw [runMain_requests_eq]; exact List.mem_singleton.2 rfl)⟩

/-- Claim C10: every run performs at most one HTTP request; with at least
two arguments the number of requests is exactly one when curl init
succeeds (whatever curl_easy_perform returns) and zero when it fails, in
which case the exit code is 1. -/
theorem C10_at_most_one_request (prog url token : String)
    (rest args : List String) (initOk : Bool)
    (perform : CurlRequest → CURLcode) :
    (runMain prog args initOk perform).requests.length ≤ 1 ∧
    (runMain prog (url :: token :: rest) initOk perform).requests.length =
      (if initOk then 1 else 0) ∧
    (runMain prog (url :: token :: rest) false perform).exitCode = 1 := by
  refine ⟨?_, ?_, rfl⟩
  · cases args with
    | nil => simp [runMain]
    | cons a t =>
      cases t with
      | nil => simp [runMain]
      | cons b r =>
        cases initOk with
        | false => simp [runMain]
        | true => cases h : perform (buildRequest a b) <;> simp [runMain, h]
  · cases initOk with
    | false => simp [runMain]
    | true => simp [runMain_requests_eq]
